import Mathlib

/-!
Shallow embedding of `src/script.js` (a three.js scene viewer: environment
cube map, one glTF model, lights, debug panel, frame loop), together with
theorems about the claims of the specification.

Conventions of the embedding:
* JavaScript numbers are modelled as rationals (`ℚ`); the claims under
  consideration involve only exact arithmetic (halving, min, division).
* Texture handles are natural numbers (`CubeTextureLoader.load` returns a
  handle synchronously, populated in the background).
* three.js objects become explicit records; the scene graph is a rose tree.
* Library defaults that the script never overrides (for example
  `WebGLRenderer.toneMapping`) are taken from the three.js documentation of
  the release line the script targets (the one with `outputEncoding` and
  `physicallyCorrectLights`): tone mapping defaults to `NoToneMapping` and
  `toneMappingExposure` to `1.0`.
-/

namespace ThreeViewer

/-- A 3-component vector of rationals, standing in for `THREE.Vector3`. -/
structure Vec3 where
  x : ℚ
  y : ℚ
  z : ℚ
deriving DecidableEq

/-- An axis-aligned box, standing in for `THREE.Box3`. -/
structure Box3 where
  min : Vec3
  max : Vec3
deriving DecidableEq

/-- The five tone-mapping operators offered by the dropdown
(`script.js` lines 169-174), mirroring the three.js constants. -/
inductive ToneMapping where
  | noToneMapping
  | linearToneMapping
  | reinhardToneMapping
  | cineonToneMapping
  | acesFilmicToneMapping
deriving DecidableEq

/-- Output encoding of the renderer (`THREE.sRGBEncoding` is chosen at
`script.js` line 132). -/
inductive TextureEncoding where
  | linearEncoding
  | sRGBEncoding
deriving DecidableEq

/-- Shadow-map filter (`THREE.PCFSoftShadowMap` is chosen at line 137). -/
inductive ShadowMapType where
  | basicShadowMap
  | pcfShadowMap
  | pcfSoftShadowMap
deriving DecidableEq

/-- The fields of `THREE.MeshStandardMaterial` that the program reads or
writes, plus representative fields it never touches (needed to state frame
conditions: `color`, `roughness`, `metalness`, `map` must survive an update
pass untouched). Texture handles are natural numbers. -/
structure MeshStandardMaterial where
  color : ℕ
  roughness : ℚ
  metalness : ℚ
  map : Option ℕ
  envMap : Option ℕ
  envMapIntensity : ℚ
deriving DecidableEq

/-- A mesh material: either a standard (physically lit) material, or any
other material kind, kept opaque (the updater must leave it alone). -/
inductive Material where
  | standard (m : MeshStandardMaterial)
  | basic (data : ℕ)
deriving DecidableEq

/-- What kind of scene-graph node we are looking at. The camera and the
directional light are modelled structurally (the claims only need them to
not be meshes); a mesh carries its geometry's local bounding box and its
material. -/
inductive NodeKind where
  | group
  | cameraRef
  | light (color : String) (intensity : ℚ) (shadowCameraFar : ℚ) (shadowMapWidth : ℕ) (shadowMapHeight : ℕ)
  | mesh (geometry : Box3) (material : Material)
deriving DecidableEq

/-- Per-node `Object3D` state touched by this program: transform (position
and scale; the script never rotates anything) and the shadow flags. -/
structure NodeProps where
  position : Vec3
  scale : Vec3
  castShadow : Bool
  receiveShadow : Bool
deriving DecidableEq

/-- Default `Object3D` construction state in three.js: identity transform,
shadow flags off. -/
def defaultProps : NodeProps :=
  { position := ⟨0, 0, 0⟩, scale := ⟨1, 1, 1⟩, castShadow := false, receiveShadow := false }

/-- A scene-graph object: a node kind, its mutable per-node state, and its
children. `THREE.Scene` itself is the root node (kind `group`). -/
inductive Object3D where
  | node (kind : NodeKind) (props : NodeProps) (children : List Object3D)

/-- The per-node state of an object. -/
def Object3D.props : Object3D → NodeProps
  | .node _ p _ => p

/-- The kind of an object. -/
def Object3D.kind : Object3D → NodeKind
  | .node k _ _ => k

/-- The children of an object. -/
def Object3D.children : Object3D → List Object3D
  | .node _ _ cs => cs

/-- `scene.add(child)`: append to the child list. -/
def Object3D.addChild : Object3D → Object3D → Object3D
  | .node k p cs, c => .node k p (cs ++ [c])

/-- `obj.position.y = v` (line 54 of the load callback). -/
def Object3D.withPositionY : Object3D → ℚ → Object3D
  | .node k p cs, v => .node k { p with position := { p.position with y := v } } cs

/-- `obj.scale.set(a, a, a)` (line 58 of the load callback). -/
def Object3D.withScale : Object3D → Vec3 → Object3D
  | .node k p cs, v => .node k { p with scale := v } cs

/-- The handle of the environment cube map produced by
`cubeTextureLoader.load` at `script.js` lines 27-34. -/
def environmentMap : ℕ := 1

/-- The six fixed cube-map image paths (lines 28-33), ordered +x -x +y -y +z -z. -/
def environmentMapPaths : List String :=
  ["/textures/environmentMaps/1/px.jpg", "/textures/environmentMaps/1/nx.jpg",
   "/textures/environmentMaps/1/py.jpg", "/textures/environmentMaps/1/ny.jpg",
   "/textures/environmentMaps/1/pz.jpg", "/textures/environmentMaps/1/nz.jpg"]

/-- The body of the `scene.traverse` callback of `updateAllMaterials`
(lines 76-78), restricted to the node kind: a mesh whose material is a
`MeshStandardMaterial` gets `envMap` and `envMapIntensity` assigned; every
other node kind passes through unchanged. -/
def updateChildKind (env : ℕ) (intensity : ℚ) : NodeKind → NodeKind
  | .mesh geo (.standard m) =>
      .mesh geo (.standard { m with envMap := some env, envMapIntensity := intensity })
  | k => k

/-- The body of the `scene.traverse` callback of `updateAllMaterials`
(lines 81-82), restricted to the per-node state: a mesh with a standard
material gets `castShadow := true` and `receiveShadow := true`; every other
node's state passes through unchanged. -/
def updateChildProps : NodeKind → NodeProps → NodeProps
  | .mesh _ (.standard _), p => { p with castShadow := true, receiveShadow := true }
  | _, p => p

mutual
/-- `updateAllMaterials` on one object: `scene.traverse` visits the object
itself and, recursively, all of its descendants (lines 74-85). -/
def updateObject (env : ℕ) (intensity : ℚ) : Object3D → Object3D
  | .node k p cs =>
      .node (updateChildKind env intensity k) (updateChildProps k p)
        (updateObjectList env intensity cs)

/-- `updateObject` mapped over a child list. -/
def updateObjectList (env : ℕ) (intensity : ℚ) : List Object3D → List Object3D
  | [] => []
  | c :: cs => updateObject env intensity c :: updateObjectList env intensity cs
end

theorem updateChildKind_idem (env : ℕ) (i : ℚ) (k : NodeKind) :
    updateChildKind env i (updateChildKind env i k) = updateChildKind env i k := by
  cases k with
  | group => rfl
  | cameraRef => rfl
  | light c int f mw mh => rfl
  | mesh geo mat => cases mat <;> rfl

theorem updateChildProps_idem (env : ℕ) (i : ℚ) (k : NodeKind) (p : NodeProps) :
    updateChildProps (updateChildKind env i k) (updateChildProps k p) = updateChildProps k p := by
  cases k with
  | group => rfl
  | cameraRef => rfl
  | light c int f mw mh => rfl
  | mesh geo mat => cases mat <;> rfl

mutual
theorem updateObject_idem (env : ℕ) (i : ℚ) :
    (o : Object3D) → updateObject env i (updateObject env i o) = updateObject env i o
  | .node k p cs => by
      rw [updateObject, updateObject, updateChildKind_idem, updateChildProps_idem,
        updateObjectList_idem env i cs]

theorem updateObjectList_idem (env : ℕ) (i : ℚ) :
    (l : List Object3D) → updateObjectList env i (updateObjectList env i l) = updateObjectList env i l
  | [] => rfl
  | c :: cs => by
      rw [updateObjectList, updateObjectList, updateObject_idem env i c,
        updateObjectList_idem env i cs]
end

/-- Componentwise minimum of two vectors. -/
def Vec3.cmin (a b : Vec3) : Vec3 := ⟨min a.x b.x, min a.y b.y, min a.z b.z⟩

/-- Componentwise maximum of two vectors. -/
def Vec3.cmax (a b : Vec3) : Vec3 := ⟨max a.x b.x, max a.y b.y, max a.z b.z⟩

/-- Union of two boxes, as `THREE.Box3.union`. -/
def Box3.union (a b : Box3) : Box3 := ⟨a.min.cmin b.min, a.max.cmax b.max⟩

/-- Union of two possibly-empty boxes (`none` is the empty `Box3`,
whose three.js representation is min = +∞, max = -∞). -/
def boxUnion : Option Box3 → Option Box3 → Option Box3
  | none, b => b
  | some a, none => some a
  | some a, some b => some (a.union b)

/-- `pos + scale * p`, componentwise: a node's transform (the script only
ever translates and scales, never rotates) applied to a point. -/
def Vec3.applyTransform (pos scale p : Vec3) : Vec3 :=
  ⟨pos.x + scale.x * p.x, pos.y + scale.y * p.y, pos.z + scale.z * p.z⟩

/-- A node's transform applied to a box: transform both corners and retake
the componentwise min/max (exact for translation and diagonal scale). -/
def Box3.applyTransform (pos scale : Vec3) (b : Box3) : Box3 :=
  let c1 := Vec3.applyTransform pos scale b.min
  let c2 := Vec3.applyTransform pos scale b.max
  ⟨c1.cmin c2, c2.cmax c1⟩

/-- The local bounding box of a node's own geometry: only meshes carry
geometry. -/
def ownBox : NodeKind → Option Box3
  | .mesh geo _ => some geo
  | .group => none
  | .cameraRef => none
  | .light _ _ _ _ _ => none

mutual
/-- `new THREE.Box3().setFromObject(obj)` (line 50): the bounding box of the
object's own geometry united with its children's boxes, carried through the
object's transform; `none` when the subtree holds no geometry. -/
def objectBox : Object3D → Option Box3
  | .node k p cs =>
      (boxUnion (ownBox k) (childListBox cs)).map (Box3.applyTransform p.position p.scale)

/-- Union of the boxes of a list of children. -/
def childListBox : List Object3D → Option Box3
  | [] => none
  | c :: cs => boxUnion (objectBox c) (childListBox cs)
end

/-- Alias under the three.js method name used at line 50. -/
def setFromObject (o : Object3D) : Option Box3 := objectBox o

/-- The world-space vertical coordinate of an object's lowest point, when
the object carries any geometry. -/
def lowestWorldY (o : Object3D) : Option ℚ := (objectBox o).map (fun b => b.min.y)

/-- The most recently added child of an object. -/
def lastChild : Object3D → Option Object3D
  | .node _ _ cs => cs.getLast?

/-- An animation clip, identified by name. -/
abbrev AnimationClip := String

/-- `mixer.clipAction(clip)` with `.play()` already called on it. -/
structure ClipAction where
  clip : AnimationClip
  playing : Bool
deriving DecidableEq

/-- `THREE.AnimationMixer`: bound to its root object at construction,
advanced by `update(delta)` each frame. -/
structure AnimationMixer where
  root : Object3D
  time : ℚ
  actions : List ClipAction

/-- `mixer.update(delta)` (line 201). -/
def AnimationMixer.update (m : AnimationMixer) (delta : ℚ) : AnimationMixer :=
  { m with time := m.time + delta }

/-- What `GLTFLoader` hands to the success callback: a scene fragment and
the animation clip list (lines 46-47, 65). -/
structure GLTF where
  scene : Object3D
  animations : List AnimationClip

/-- `THREE.PerspectiveCamera` state the program touches. `projectionAspect`
is the aspect ratio currently baked into the projection matrix; the
constructor and `updateProjectionMatrix` (line 100) copy `aspect` into it. -/
structure PerspectiveCamera where
  fov : ℚ
  aspect : ℚ
  near : ℚ
  far : ℚ
  projectionAspect : ℚ
deriving DecidableEq

/-- `OrbitControls` state: damping flag (line 121) and a count of
`controls.update()` calls (line 204), the only interaction the program has
with this otherwise-opaque library object. -/
structure OrbitControls where
  enableDamping : Bool
  updatesApplied : ℕ
deriving DecidableEq

/-- `THREE.WebGLRenderer` state the program touches, plus a count of
`renderer.render` calls made by the frame loop. -/
structure RendererState where
  antialias : Bool
  width : ℚ
  height : ℚ
  pixelRatio : ℚ
  outputEncoding : TextureEncoding
  physicallyCorrectLights : Bool
  shadowMapEnabled : Bool
  shadowMapType : ShadowMapType
  toneMapping : ToneMapping
  toneMappingExposure : ℚ
  framesRendered : ℕ
deriving DecidableEq

/-- The `debugObject` record once lines 164-166 have run: tone mapping,
exposure and environment-map intensity as shown by the Debug Panel. -/
structure DebugObject where
  toneMapping : ToneMapping
  toneMappingExposure : ℚ
  envMapIntensity : ℚ
deriving DecidableEq

/-- The `sizes` record (lines 90-93). -/
structure Sizes where
  width : ℚ
  height : ℚ
deriving DecidableEq

/-- The whole mutable program state the claims talk about. The scene root
owns the camera node and the light node as children (lines 111, 144); the
projection state of the camera and the renderer/controls/debug records sit
beside it. `mixer` is the `let mixer` binding of line 42. -/
structure AppState where
  scene : Object3D
  background : Option ℕ
  environment : Option ℕ
  sizes : Sizes
  camera : PerspectiveCamera
  controls : OrbitControls
  renderer : RendererState
  debugObject : DebugObject
  mixer : Option AnimationMixer

/-- `updateAllMaterials` (lines 74-85) as a state transformer: traverse the
scene with the module-level environment map and the current
`debugObject.envMapIntensity`. -/
def updateAllMaterials (s : AppState) : AppState :=
  { s with scene := updateObject environmentMap s.debugObject.envMapIntensity s.scene }

/-- The camera node added to the scene at line 111, positioned at
`(4, 1, -4)` (line 110). -/
def cameraNode : Object3D :=
  .node .cameraRef { defaultProps with position := ⟨4, 1, -4⟩ } []

/-- The directional light (lines 142-153): white, intensity 3, at
`(0.25, 3, -2.25)`, casting shadows, shadow camera far 15, shadow map
1024 by 1024. -/
def lightNode : Object3D :=
  .node (.light "#ffffff" 3 15 1024 1024)
    { defaultProps with position := ⟨1/4, 3, -9/4⟩, castShadow := true } []

/-- The program state once the top-level script has finished running, as a
function of the window's inner width, inner height and device pixel ratio.
The renderer keeps the `WebGLRenderer` construction defaults for
`toneMapping` (`NoToneMapping`) and `toneMappingExposure` (`1`): the script
assigns those renderer fields only inside the panel `onChange` handlers
(lines 176, 182), never at startup; lines 164-165 write `debugObject` only. -/
def startupState (w h dpr : ℚ) : AppState :=
  { scene := .node .group defaultProps [cameraNode, lightNode]
    background := some environmentMap
    environment := some environmentMap
    sizes := { width := w, height := h }
    camera := { fov := 75, aspect := w / h, near := 1/10, far := 100, projectionAspect := w / h }
    controls := { enableDamping := true, updatesApplied := 0 }
    renderer :=
      { antialias := true
        width := w
        height := h
        pixelRatio := min dpr 2
        outputEncoding := .sRGBEncoding
        physicallyCorrectLights := true
        shadowMapEnabled := true
        shadowMapType := .pcfSoftShadowMap
        toneMapping := .noToneMapping
        toneMappingExposure := 1
        framesRendered := 0 }
    debugObject :=
      { toneMapping := .acesFilmicToneMapping, toneMappingExposure := 3, envMapIntensity := 5/2 }
    mixer := none }

/-- The height the load callback computes at lines 50-51:
`box.max.y - box.min.y` of `new THREE.Box3().setFromObject(fox)`. (For a
model with no geometry three.js would produce the empty box's degenerate
infinities; that case lies outside the rational embedding and is mapped to
0 here — no claim exercises it.) -/
def loadedHeight (gltf : GLTF) : ℚ :=
  match setFromObject gltf.scene with
  | some b => b.max.y - b.min.y
  | none => 0

/-- The model as lines 54 and 58 leave it, just before `scene.add(fox)`:
`fox.position.y = -height / 2` and `fox.scale.set(0.5, 0.5, 0.5)`. -/
def placedFox (gltf : GLTF) : Object3D :=
  (gltf.scene.withPositionY (-(loadedHeight gltf / 2))).withScale ⟨1/2, 1/2, 1/2⟩

/-- The `gltfLoader.load` success callback (lines 46-68): compute the
model's bounding box, set `position.y := -height/2`, scale by one half, add
the model to the scene, run the material updater, then create the mixer on
the model and play every clip. The mixer's root is the very object the
material pass just mutated in place, which in this value embedding is
`updateObject` applied to the placed model. -/
def loadCallback (gltf : GLTF) (s : AppState) : AppState :=
  let fox := placedFox gltf
  let s1 := updateAllMaterials { s with scene := s.scene.addChild fox }
  let foxRef := updateObject environmentMap s.debugObject.envMapIntensity fox
  { s1 with
    mixer := some
      { root := foxRef
        time := 0
        actions := gltf.animations.map (fun c => { clip := c, playing := true }) } }

/-- What the single `gltfLoader.load(url, onLoad)` call at lines 44-69
registers: the URL, the success callback, and nothing else — the optional
`onProgress` and `onError` arguments are not passed. -/
structure GLTFLoadRegistration where
  url : String
  onLoad : GLTF → AppState → AppState
  onProgress : Option (ℚ → AppState → AppState)
  onError : Option (String → AppState → AppState)

/-- The one load issued by the program (lines 44-69). -/
def foxLoadRegistration : GLTFLoadRegistration :=
  { url := "/models/Fox/glTF/Fox.gltf"
    onLoad := loadCallback
    onProgress := none
    onError := none }

/-- What happens to program state when a registered load fails: the
library invokes the registered error callback if there is one, and
otherwise only logs internally (no user callback, no state change). -/
def applyLoadFailure (r : GLTFLoadRegistration) (err : String) (s : AppState) : AppState :=
  match r.onError with
  | some handler => handler err s
  | none => s

/-- A `window` resize notification: the new inner width and height and the
device pixel ratio read by the handler. -/
structure ResizeEvent where
  innerWidth : ℚ
  innerHeight : ℚ
  devicePixelRatio : ℚ
deriving DecidableEq

/-- The resize handler (lines 95-104): update `sizes`, recompute the camera
aspect, update the projection matrix, resize the renderer, and re-cap the
pixel ratio at 2. -/
def resizeHandler (e : ResizeEvent) (s : AppState) : AppState :=
  let sizes : Sizes := { width := e.innerWidth, height := e.innerHeight }
  let camera := { s.camera with aspect := sizes.width / sizes.height }
  let camera := { camera with projectionAspect := camera.aspect }
  { s with
    sizes := sizes
    camera := camera
    renderer :=
      { s.renderer with
        width := sizes.width
        height := sizes.height
        pixelRatio := min e.devicePixelRatio 2 } }

/-- A whole sequence of resize notifications, oldest first. -/
def applyResizes (s : AppState) : List ResizeEvent → AppState
  | [] => s
  | e :: es => applyResizes (resizeHandler e s) es

/-- One primitive step a Debug Panel `onChange` handler performs. The
`setDebug…` steps model lil-gui writing the bound `debugObject` property
before it fires `onChange`. -/
inductive PanelEffect where
  | setDebugToneMapping (v : ToneMapping)
  | setDebugExposure (x : ℚ)
  | setDebugEnvMapIntensity (x : ℚ)
  | setRendererToneMapping (v : ToneMapping)
  | setRendererExposure (x : ℚ)
  | materialUpdaterPass
deriving DecidableEq

/-- The steps run when the tone-mapping dropdown changes (lines 169-178):
the controller stores the selected value in `debugObject`, the handler
assigns `renderer.toneMapping = value` and calls `updateAllMaterials()`. -/
def toneMappingOnChange (v : ToneMapping) : List PanelEffect :=
  [.setDebugToneMapping v, .setRendererToneMapping v, .materialUpdaterPass]

/-- The steps run when the exposure slider changes (lines 181-184). -/
def exposureOnChange (x : ℚ) : List PanelEffect :=
  [.setDebugExposure x, .setRendererExposure x, .materialUpdaterPass]

/-- The steps run when the env-map intensity slider changes (lines 187-189). -/
def envMapIntensityOnChange (x : ℚ) : List PanelEffect :=
  [.setDebugEnvMapIntensity x, .materialUpdaterPass]

/-- Interpret one panel step on the program state. -/
def applyPanelEffect (s : AppState) : PanelEffect → AppState
  | .setDebugToneMapping v => { s with debugObject := { s.debugObject with toneMapping := v } }
  | .setDebugExposure x => { s with debugObject := { s.debugObject with toneMappingExposure := x } }
  | .setDebugEnvMapIntensity x => { s with debugObject := { s.debugObject with envMapIntensity := x } }
  | .setRendererToneMapping v => { s with renderer := { s.renderer with toneMapping := v } }
  | .setRendererExposure x => { s with renderer := { s.renderer with toneMappingExposure := x } }
  | .materialUpdaterPass => updateAllMaterials s

/-- Interpret a list of panel steps, in order. -/
def runPanelEffects (s : AppState) : List PanelEffect → AppState
  | [] => s
  | e :: es => runPanelEffects (applyPanelEffect s e) es

/-- How many Material Updater passes a list of panel steps performs. -/
def materialUpdaterPasses (effects : List PanelEffect) : ℕ :=
  effects.countP (fun e => match e with | .materialUpdaterPass => true | _ => false)

/-- The dropdown's enumeration (lines 169-174), label to operator. -/
def toneMappingOptions : List (String × ToneMapping) :=
  [("No Tone Mapping", .noToneMapping),
   ("Linear Tone Mapping", .linearToneMapping),
   ("Reinhard Tone Mapping", .reinhardToneMapping),
   ("Cineon Tone Mapping", .cineonToneMapping),
   ("ACES Filmic Tone Mapping", .acesFilmicToneMapping)]

/-- What one iteration of the frame loop did. -/
structure TickReport where
  mixerAdvanced : Bool
  controlsUpdated : Bool
  frameRendered : Bool
  nextFrameRequested : Bool
deriving DecidableEq

/-- One iteration of `tick` (lines 196-207) with measured elapsed time
`delta`: advance the mixer only when it exists (`if (mixer)` at line 200 —
the truthiness guard is what keeps the loop safe before the model loads),
advance the controls, render one frame, request the next iteration. -/
def tick (delta : ℚ) (s : AppState) : AppState × TickReport :=
  let (mixer, advanced) : Option AnimationMixer × Bool :=
    match s.mixer with
    | some m => (some (m.update delta), true)
    | none => (none, false)
  ({ s with
      mixer := mixer
      controls := { s.controls with updatesApplied := s.controls.updatesApplied + 1 }
      renderer := { s.renderer with framesRendered := s.renderer.framesRendered + 1 } },
   { mixerAdvanced := advanced
     controlsUpdated := true
     frameRendered := true
     nextFrameRequested := true })

theorem updateObjectList_append (env : ℕ) (i : ℚ) (l₁ l₂ : List Object3D) :
    updateObjectList env i (l₁ ++ l₂) = updateObjectList env i l₁ ++ updateObjectList env i l₂ := by
  induction l₁ with
  | nil => rfl
  | cons c cs ih => rw [List.cons_append, updateObjectList, updateObjectList, ih, List.cons_append]

theorem updateChildKind_geometry (env : ℕ) (i : ℚ) (geo : Box3) (mat : Material) :
    ∃ mat2, updateChildKind env i (.mesh geo mat) = .mesh geo mat2 := by
  cases mat with
  | standard m => exact ⟨_, rfl⟩
  | basic d => exact ⟨_, rfl⟩

theorem updateChildProps_position (k : NodeKind) (p : NodeProps) :
    (updateChildProps k p).position = p.position := by
  cases k with
  | group => rfl
  | cameraRef => rfl
  | light c int f mw mh => rfl
  | mesh geo mat => cases mat <;> rfl

theorem updateChildProps_scale (k : NodeKind) (p : NodeProps) :
    (updateChildProps k p).scale = p.scale := by
  cases k with
  | group => rfl
  | cameraRef => rfl
  | light c int f mw mh => rfl
  | mesh geo mat => cases mat <;> rfl

theorem ownBox_updateChildKind (env : ℕ) (i : ℚ) (k : NodeKind) :
    ownBox (updateChildKind env i k) = ownBox k := by
  cases k with
  | group => rfl
  | cameraRef => rfl
  | light c int f mw mh => rfl
  | mesh geo mat => cases mat <;> rfl

mutual
theorem objectBox_updateObject (env : ℕ) (i : ℚ) :
    (o : Object3D) → objectBox (updateObject env i o) = objectBox o
  | .node k p cs => by
      rw [updateObject, objectBox, objectBox, childListBox_updateObjectList env i cs,
        updateChildProps_position, updateChildProps_scale, ownBox_updateChildKind]

theorem childListBox_updateObjectList (env : ℕ) (i : ℚ) :
    (l : List Object3D) → childListBox (updateObjectList env i l) = childListBox l
  | [] => rfl
  | c :: cs => by
      rw [updateObjectList, childListBox, childListBox, objectBox_updateObject env i c,
        childListBox_updateObjectList env i cs]
end

theorem updateObject_props_position (env : ℕ) (i : ℚ) (o : Object3D) :
    (updateObject env i o).props.position = o.props.position := by
  cases o with
  | node k p cs => rw [updateObject, Object3D.props, Object3D.props, updateChildProps_position]

theorem updateObject_props_scale (env : ℕ) (i : ℚ) (o : Object3D) :
    (updateObject env i o).props.scale = o.props.scale := by
  cases o with
  | node k p cs => rw [updateObject, Object3D.props, Object3D.props, updateChildProps_scale]

mutual
/-- The preorder listing of a scene graph's nodes: the kind and per-node
state of the object itself and then of all its descendants (the visit order
of `scene.traverse`). -/
def nodesOf : Object3D → List (NodeKind × NodeProps)
  | .node k p cs => (k, p) :: nodesOfList cs

/-- `nodesOf` over a child list. -/
def nodesOfList : List Object3D → List (NodeKind × NodeProps)
  | [] => []
  | c :: cs => nodesOf c ++ nodesOfList cs
end

mutual
theorem nodesOf_updateObject (env : ℕ) (i : ℚ) :
    (o : Object3D) → nodesOf (updateObject env i o) =
      (nodesOf o).map (fun kp => (updateChildKind env i kp.1, updateChildProps kp.1 kp.2))
  | .node k p cs => by
      rw [updateObject, nodesOf, nodesOf, List.map_cons,
        nodesOfList_updateObjectList env i cs]

theorem nodesOfList_updateObjectList (env : ℕ) (i : ℚ) :
    (l : List Object3D) → nodesOfList (updateObjectList env i l) =
      (nodesOfList l).map (fun kp => (updateChildKind env i kp.1, updateChildProps kp.1 kp.2))
  | [] => rfl
  | c :: cs => by
      rw [updateObjectList, nodesOfList, nodesOfList, List.map_append,
        nodesOf_updateObject env i c, nodesOfList_updateObjectList env i cs]
end

/-- The scene after the load callback: its last child is the placed model
as mutated by the material pass. -/
theorem loadCallback_lastChild_eq (gltf : GLTF) (s : AppState) :
    lastChild (loadCallback gltf s).scene =
      some (updateObject environmentMap s.debugObject.envMapIntensity (placedFox gltf)) := by
  cases s with
  | mk scene bg envr sz cam ctl ren dbg mx =>
    cases scene with
    | node k p cs =>
      simp only [loadCallback, updateAllMaterials, Object3D.addChild, updateObject, lastChild,
        updateObjectList_append]
      rw [updateObjectList, updateObjectList]
      exact List.getLast?_concat _

/-- The load callback always produces a mixer, bound to the object the
material pass just updated — the scene's newly added last child. -/
theorem loadCallback_mixer_root (gltf : GLTF) (s : AppState) :
    ∃ m, (loadCallback gltf s).mixer = some m ∧
      lastChild (loadCallback gltf s).scene = some m.root ∧
      m.time = 0 ∧
      m.actions = gltf.animations.map (fun c => { clip := c, playing := true }) :=
  ⟨_, rfl, loadCallback_lastChild_eq gltf s, rfl, rfl⟩

/-- A concrete standard material for test models. -/
def sampleMaterial : MeshStandardMaterial :=
  { color := 16777215, roughness := 1, metalness := 0, map := none
    envMap := none, envMapIntensity := 1 }

/-- A concrete loaded model: a group at the identity transform holding one
standard-material mesh whose geometry spans y from -1 to 1, so the model's
bounding-box height is 2 and its local origin is its vertical center. -/
def sampleFox : Object3D :=
  .node .group defaultProps
    [.node (.mesh ⟨⟨-1, -1, -1⟩, ⟨1, 1, 1⟩⟩ (.standard sampleMaterial)) defaultProps []]

/-- A concrete `GLTFLoader` result carrying `sampleFox` and no animation
clips. -/
def sampleGLTF : GLTF := { scene := sampleFox, animations := [] }

/-- C1: the claim says the renderer starts with the ACES filmic operator
and exposure 3.0. It does not: at startup the renderer still holds the
library construction defaults (no tone mapping, exposure 1), because
`script.js` lines 164-165 initialise `debugObject` only and the renderer
fields are first assigned inside the panel `onChange` handlers. -/
theorem startup_renderer_toneMapping_counterexample :
    ¬ ((startupState 800 600 1).renderer.toneMapping = ToneMapping.acesFilmicToneMapping ∧
       (startupState 800 600 1).renderer.toneMappingExposure = 3) := by
  intro h
  exact ToneMapping.noConfusion h.1

/-- C1 (amended): at startup the Debug Parameters record holds the filmic
operator and exposure 3.0, but the renderer's active operator is the
library default `NoToneMapping` with exposure 1.0; the renderer receives
the filmic operator (respectively an exposure) only when the corresponding
Debug Panel control fires its change handler. -/
theorem startup_toneMapping_defaults (w h dpr : ℚ) :
    (startupState w h dpr).debugObject.toneMapping = ToneMapping.acesFilmicToneMapping ∧
    (startupState w h dpr).debugObject.toneMappingExposure = 3 ∧
    (startupState w h dpr).renderer.toneMapping = ToneMapping.noToneMapping ∧
    (startupState w h dpr).renderer.toneMappingExposure = 1 ∧
    (runPanelEffects (startupState w h dpr)
        (toneMappingOnChange ToneMapping.acesFilmicToneMapping)).renderer.toneMapping =
      ToneMapping.acesFilmicToneMapping ∧
    (runPanelEffects (startupState w h dpr) (exposureOnChange 3)).renderer.toneMappingExposure = 3 :=
  ⟨rfl, rfl, rfl, rfl, rfl, rfl⟩

/-- C3: the claim says a mixer is present exactly when the loaded model
carried at least one animation clip. It is false: the callback at line 64
constructs the mixer unconditionally, so a model with an empty clip list
still gets a mixer. -/
theorem mixer_without_animations_counterexample :
    ¬ ((loadCallback sampleGLTF (startupState 800 600 1)).mixer.isSome = true ↔
       sampleGLTF.animations ≠ []) := by
  decide

/-- C3 (amended): after the model-load callback runs, a mixer is always
present — regardless of whether the model carried animation clips — and it
is bound one-to-one to the loaded model (its root is the scene's newly
added child), with one playing action per carried clip. -/
theorem mixer_always_present_and_bound (gltf : GLTF) (s : AppState) :
    ∃ m, (loadCallback gltf s).mixer = some m ∧
      lastChild (loadCallback gltf s).scene = some m.root ∧
      m.actions = gltf.animations.map (fun c => { clip := c, playing := true }) := by
  obtain ⟨m, h1, h2, _, h4⟩ := loadCallback_mixer_root gltf s
  exact ⟨m, h1, h2, h4⟩

/-- C4: the Material Updater is idempotent — with the environment map and
`debugObject.envMapIntensity` unchanged between the calls (the updater
changes neither), running it twice leaves exactly the state one run
produces. -/
theorem materialUpdater_idempotent (s : AppState) :
    updateAllMaterials (updateAllMaterials s) = updateAllMaterials s := by
  cases s with
  | mk scene bg envr sz cam ctl ren dbg mx =>
    simp only [updateAllMaterials]
    rw [updateObject_idem]

/-- C5: selecting any of the five enumerated tone-mapping operators runs
the dropdown's change handler, which sets `renderer.toneMapping` to exactly
the selected value and performs exactly one Material Updater pass; the
dropdown enumerates exactly the five operators. -/
theorem toneMapping_selection (v : ToneMapping) (s : AppState) :
    (runPanelEffects s (toneMappingOnChange v)).renderer.toneMapping = v ∧
    (runPanelEffects s (toneMappingOnChange v)).debugObject.toneMapping = v ∧
    materialUpdaterPasses (toneMappingOnChange v) = 1 ∧
    toneMappingOptions.map Prod.snd =
      [ToneMapping.noToneMapping, ToneMapping.linearToneMapping,
       ToneMapping.reinhardToneMapping, ToneMapping.cineonToneMapping,
       ToneMapping.acesFilmicToneMapping] :=
  ⟨rfl, rfl, rfl, rfl⟩

/-- C6: after any sequence of resize events, immediately after the latest
handler returns (and so before the next frame renders), the camera's aspect
ratio — and the aspect baked into its projection matrix — equals the new
width over the new height, the renderer's drawing-buffer size is the new
(width, height), and the renderer's pixel ratio is the device pixel ratio
capped at 2. -/
theorem resize_invariant (past : List ResizeEvent) (e : ResizeEvent) (s : AppState) :
    (resizeHandler e (applyResizes s past)).camera.aspect = e.innerWidth / e.innerHeight ∧
    (resizeHandler e (applyResizes s past)).camera.projectionAspect = e.innerWidth / e.innerHeight ∧
    (resizeHandler e (applyResizes s past)).sizes.width = e.innerWidth ∧
    (resizeHandler e (applyResizes s past)).sizes.height = e.innerHeight ∧
    (resizeHandler e (applyResizes s past)).renderer.width = e.innerWidth ∧
    (resizeHandler e (applyResizes s past)).renderer.height = e.innerHeight ∧
    (resizeHandler e (applyResizes s past)).renderer.pixelRatio = min e.devicePixelRatio 2 :=
  ⟨rfl, rfl, rfl, rfl, rfl, rfl, rfl⟩

/-- C7: when the mixer is absent (model not yet loaded) an iteration of the
frame loop still completes: mixer advancement is skipped (the `if (mixer)`
guard at line 200), the controls are advanced, one frame is rendered, and
the next iteration is requested. -/
theorem tick_without_mixer (delta : ℚ) (s : AppState) (h : s.mixer = none) :
    (tick delta s).2.mixerAdvanced = false ∧
    (tick delta s).2.controlsUpdated = true ∧
    (tick delta s).2.frameRendered = true ∧
    (tick delta s).2.nextFrameRequested = true ∧
    (tick delta s).1.mixer = none ∧
    (tick delta s).1.controls.updatesApplied = s.controls.updatesApplied + 1 ∧
    (tick delta s).1.renderer.framesRendered = s.renderer.framesRendered + 1 := by
  simp [tick, h]

/-- C7 (witness): at startup, with zero assets loaded, the mixer is absent
and the first `tick` renders a frame. -/
theorem tick_without_mixer_witness :
    (startupState 800 600 1).mixer = none ∧
    (tick 0 (startupState 800 600 1)).2.mixerAdvanced = false ∧
    (tick 0 (startupState 800 600 1)).2.frameRendered = true ∧
    (tick 0 (startupState 800 600 1)).1.renderer.framesRendered = 1 := by
  have h := tick_without_mixer 0 (startupState 800 600 1) rfl
  exact ⟨rfl, h.1, h.2.2.1, h.2.2.2.2.2.2⟩

/-- C8: calling the Material Updater on the startup state — whose scene
graph holds only the camera node and the directional light, no
standard-material mesh — changes nothing at all. -/
theorem materialUpdater_noop_before_model (w h dpr : ℚ) :
    updateAllMaterials (startupState w h dpr) = startupState w h dpr := rfl

/-- C9: the single model load registers only a success callback (no
progress and no error callback, lines 44-69), so a failed load invokes no
callback of this program and leaves every piece of program state — in
particular the scene graph and the mixer — unchanged. -/
theorem load_failure_unobservable (err : String) (s : AppState) :
    foxLoadRegistration.onError = none ∧
    foxLoadRegistration.onProgress = none ∧
    applyLoadFailure foxLoadRegistration err s = s ∧
    (applyLoadFailure foxLoadRegistration err s).scene = s.scene ∧
    (applyLoadFailure foxLoadRegistration err s).mixer = s.mixer :=
  ⟨rfl, rfl, rfl, rfl, rfl⟩

/-- C10: a Material Updater pass maps each node of the scene graph in place
(first conjunct: the node listing is mapped pointwise, so the graph's shape
is preserved and each node depends only on itself); on non-meshes and on
meshes with a non-standard material both the kind and the per-node state
pass through unchanged; on a standard-material mesh the only fields that
change are the material's `envMap` and `envMapIntensity` and the node's
`castShadow`/`receiveShadow` flags — geometry, `color`, `roughness`,
`metalness`, `map`, position and scale are all preserved. -/
theorem materialUpdater_frame_conditions (env : ℕ) (i : ℚ) :
    (∀ o : Object3D, nodesOf (updateObject env i o) =
        (nodesOf o).map (fun kp => (updateChildKind env i kp.1, updateChildProps kp.1 kp.2))) ∧
    updateChildKind env i .group = .group ∧
    updateChildKind env i .cameraRef = .cameraRef ∧
    (∀ c int f mw mh, updateChildKind env i (.light c int f mw mh) = .light c int f mw mh) ∧
    (∀ geo d, updateChildKind env i (.mesh geo (.basic d)) = .mesh geo (.basic d)) ∧
    (∀ geo m, updateChildKind env i (.mesh geo (.standard m)) =
        .mesh geo (.standard
          { color := m.color, roughness := m.roughness, metalness := m.metalness,
            map := m.map, envMap := some env, envMapIntensity := i })) ∧
    (∀ p, updateChildProps .group p = p) ∧
    (∀ p, updateChildProps .cameraRef p = p) ∧
    (∀ c int f mw mh p, updateChildProps (.light c int f mw mh) p = p) ∧
    (∀ geo d p, updateChildProps (.mesh geo (.basic d)) p = p) ∧
    (∀ geo m p, updateChildProps (.mesh geo (.standard m)) p =
        { position := p.position, scale := p.scale, castShadow := true, receiveShadow := true }) :=
  ⟨nodesOf_updateObject env i, rfl, rfl, fun _ _ _ _ _ => rfl, fun _ _ => rfl, fun _ _ => rfl,
    fun _ => rfl, fun _ => rfl, fun _ _ _ _ _ _ => rfl, fun _ _ _ => rfl, fun _ _ _ => rfl⟩

/-- C2: the claim says that with the model's local origin at its vertical
center, setting `position.y = -H/2` puts the model's lowest point at world
height 0. It does not: for `sampleFox` (height `H = 2`, origin at the
vertical center) the callback leaves the placed model's lowest world point
at `-3/2`, not 0 — the model's bottom ends up below the origin, at
`-H/2 + 0.5 * (-H/2) = -3H/4`. -/
theorem lowest_point_counterexample :
    (lastChild (loadCallback sampleGLTF (startupState 800 600 1)).scene).bind lowestWorldY
      = some (-(3/2 : ℚ)) ∧ (-(3/2 : ℚ)) ≠ 0 := by
  constructor
  · rw [loadCallback_lastChild_eq, Option.some_bind, lowestWorldY, objectBox_updateObject]
    norm_num [placedFox, loadedHeight, setFromObject, sampleGLTF, sampleFox,
      Object3D.withPositionY, Object3D.withScale, objectBox, childListBox, boxUnion, ownBox,
      defaultProps, Box3.applyTransform, Vec3.applyTransform, Vec3.cmin, Vec3.cmax,
      min_def, max_def]
  · norm_num

/-- C2 (amended): for a successfully loaded model at the identity transform
with bounding box `b` of height `H = b.max.y - b.min.y`, after the load
callback the model's `position.y` equals `-H/2` and its scale is 0.5 — the
repositioning and scaling use only the bounding box computed beforehand —
but, assuming the model's local origin is at its vertical center, the
model's lowest point's world vertical coordinate equals `-3H/4`, not 0: the
model's bottom sits below the origin whenever `H > 0`. -/
theorem height_normalization_amended (gltf : GLTF) (s : AppState) (b : Box3)
    (hpos : gltf.scene.props.position = ⟨0, 0, 0⟩)
    (hscale : gltf.scene.props.scale = ⟨1, 1, 1⟩)
    (hbox : setFromObject gltf.scene = some b)
    (hcenter : b.min.y = -b.max.y) :
    ∃ fox, lastChild (loadCallback gltf s).scene = some fox ∧
      fox.props.position.y = -((b.max.y - b.min.y) / 2) ∧
      fox.props.scale = ⟨1/2, 1/2, 1/2⟩ ∧
      lowestWorldY fox = some (-(3 * (b.max.y - b.min.y) / 4)) := by
  have hheight : loadedHeight gltf = b.max.y - b.min.y := by
    rw [loadedHeight, hbox]
  obtain ⟨sc, anims⟩ := gltf
  obtain ⟨k, p, cs⟩ := sc
  simp only [Object3D.props] at hpos hscale
  refine ⟨_, loadCallback_lastChild_eq ⟨.node k p cs, anims⟩ s, ?_, ?_, ?_⟩
  · rw [updateObject_props_position]
    simp only [placedFox, Object3D.withPositionY, Object3D.withScale, Object3D.props]
    rw [hheight]
  · rw [updateObject_props_scale]
    exact rfl
  · rw [lowestWorldY, objectBox_updateObject]
    simp only [placedFox, Object3D.withPositionY, Object3D.withScale]
    rw [setFromObject, objectBox] at hbox
    cases hib : boxUnion (ownBox k) (childListBox cs) with
    | none => rw [hib] at hbox; exact absurd hbox (by simp)
    | some ib =>
      rw [hib, Option.map_some'] at hbox
      rw [objectBox, hib, Option.map_some']
      have hb : Box3.applyTransform p.position p.scale ib = b := by
        exact Option.some.inj hbox
      rw [hpos, hscale] at hb
      subst hb
      simp only [Box3.applyTransform, Vec3.applyTransform, Vec3.cmin, Vec3.cmax] at hcenter ⊢
      rw [hheight]
      simp only [Box3.applyTransform, Vec3.applyTransform, Vec3.cmin, Vec3.cmax]
      norm_num at hcenter ⊢
      rcases le_total ib.min.y ib.max.y with hy | hy
      · rw [min_eq_left hy, max_eq_left hy] at hcenter ⊢
        rw [min_eq_left (by linarith)]
        linarith
      · rw [min_eq_right hy, max_eq_right hy] at hcenter ⊢
        rw [min_eq_right (by linarith)]
        linarith

/-- C2 (witness): the amended statement at the concrete model `sampleFox`
of height 2: `position.y = -1`, scale one half, lowest world point `-3/2`. -/
theorem height_normalization_witness :
    ∃ fox, lastChild (loadCallback sampleGLTF (startupState 800 600 1)).scene = some fox ∧
      fox.props.position.y = -1 ∧
      fox.props.scale = ⟨1/2, 1/2, 1/2⟩ ∧
      lowestWorldY fox = some (-(3/2)) := by
  obtain ⟨fox, h1, h2, h3, h4⟩ :=
    height_normalization_amended sampleGLTF (startupState 800 600 1)
      ⟨⟨-1, -1, -1⟩, ⟨1, 1, 1⟩⟩ rfl rfl
      (by norm_num [setFromObject, sampleGLTF, sampleFox, objectBox, childListBox, boxUnion,
        ownBox, defaultProps, Box3.applyTransform, Vec3.applyTransform, Vec3.cmin, Vec3.cmax,
        min_def, max_def])
      (by norm_num)
  have e2 : -(((⟨⟨-1, -1, -1⟩, ⟨1, 1, 1⟩⟩ : Box3).max.y - (⟨⟨-1, -1, -1⟩, ⟨1, 1, 1⟩⟩ : Box3).min.y) / 2) = (-1 : ℚ) := by
    norm_num
  have e4 : -(3 * ((⟨⟨-1, -1, -1⟩, ⟨1, 1, 1⟩⟩ : Box3).max.y - (⟨⟨-1, -1, -1⟩, ⟨1, 1, 1⟩⟩ : Box3).min.y) / 4) = (-(3/2) : ℚ) := by
    norm_num
  exact ⟨fox, h1, e2 ▸ h2, h3, e4 ▸ h4⟩

end ThreeViewer
